import Mathlib

/-!
Verification of the `echo` request-information HTTP service (`src/main.rs`).

The development shallowly embeds the program: header collections become
association lists from names to raw byte sequences, the `http` crate's
`HeaderValue::to_str` becomes an explicit visible-ASCII check, the
`get_request_info` extractor and each route handler become pure Lean
functions on that data, `serde_json` serialization of `RequestInfo`
becomes a small JSON value type, and the socket-setup phase of `main`
becomes a trace of socket operations parameterised by success oracles
for the fallible OS calls.
-/

namespace Echo

/-- A raw HTTP header value: a sequence of bytes (each `< 256`), exactly as
the `http` crate's `HeaderValue` stores it before any text decoding. -/
abbrev HeaderBytes := List Nat

/-- The byte predicate of `http::HeaderValue::to_str`: a byte is accepted
iff it is visible ASCII (32–126) or horizontal tab (9). -/
def is_visible_ascii (b : Nat) : Bool := (32 ≤ b && b < 127) || b == 9

/-- Embedding of `HeaderValue::to_str(..).ok()`: succeeds with the decoded
string iff every byte is visible ASCII, otherwise yields `none`. -/
def headerValueToStr (bytes : HeaderBytes) : Option String :=
  if bytes.all is_visible_ascii then some (String.mk (bytes.map Char.ofNat)) else none

/-- ASCII lowercasing of a header name, matching the case-insensitive
name normalisation of `http::HeaderName`. -/
def lowerName (s : String) : String := String.mk (s.data.map Char.toLower)

/-- Embedding of `HeaderMap::get(name)` for the lowercase literal names the
program queries with: case-insensitive lookup returning the first value
carried under that name (the `http` crate returns the first value of a
repeated header). -/
def headerGet (headers : List (String × HeaderBytes)) (name : String) : Option HeaderBytes :=
  (headers.find? (fun p => lowerName p.1 == name)).map Prod.snd

/-- Embedding of the pattern `headers.get(name).and_then(|v| v.to_str().ok())`
(the trailing `.map(|s| s.to_string())` is the identity here). -/
def getHeaderStr (headers : List (String × HeaderBytes)) (name : String) : Option String :=
  (headerGet headers name).bind headerValueToStr

/-- The remote socket address handed to the handlers by
`ConnectInfo<SocketAddr>`: the rendered IP literal (`addr.ip().to_string()`)
and the remote port (`addr.port()`, a `u16`). -/
structure SocketAddr where
  ip : String
  port : Nat

/-- The parts of an `http::Request<Body>` the program can observe: method,
URI, version, header collection and body bytes.  `get_request_info` reads
only `method` and `headers`. -/
structure Request where
  method : String
  uri : String
  version : String
  headers : List (String × HeaderBytes)
  body : List Nat

/-- The `RequestInfo` record of `src/main.rs` (fields in Rust declaration
order); `Option String` fields embed Rust's `Option<String>`. -/
structure RequestInfo where
  ip_addr : String
  remote_host : String
  user_agent : Option String
  port : Nat
  method : String
  encoding : Option String
  mime : Option String
  language : Option String
  referer : Option String
  connection : Option String
  keep_alive : Option String
  charset : Option String
  via : Option String
  forwarded : Option String

/-- Embedding of `get_request_info(addr, req)` (src/main.rs lines 28–77). -/
def get_request_info (addr : SocketAddr) (req : Request) : RequestInfo :=
  { ip_addr := addr.ip
    remote_host := "unavailable"
    user_agent := getHeaderStr req.headers "user-agent"
    port := addr.port
    method := req.method
    encoding := getHeaderStr req.headers "accept-encoding"
    mime := getHeaderStr req.headers "accept"
    language := getHeaderStr req.headers "accept-language"
    referer := getHeaderStr req.headers "referer"
    connection := getHeaderStr req.headers "connection"
    keep_alive := getHeaderStr req.headers "keep-alive"
    charset := getHeaderStr req.headers "accept-charset"
    via := getHeaderStr req.headers "via"
    forwarded := getHeaderStr req.headers "forwarded" }

/-- Body of `ip_handler`: the client IP followed by a newline. -/
def ip_handler (addr : SocketAddr) : String := addr.ip ++ "\n"

/-- Body of `ua_handler` (src/main.rs lines 85–95). -/
def ua_handler (req : Request) : String :=
  (getHeaderStr req.headers "user-agent").getD "unknown" ++ "\n"

/-- Body of `lang_handler` (src/main.rs lines 98–108). -/
def lang_handler (req : Request) : String :=
  (getHeaderStr req.headers "accept-language").getD "unknown" ++ "\n"

/-- Body of `encoding_handler` (src/main.rs lines 111–121). -/
def encoding_handler (req : Request) : String :=
  (getHeaderStr req.headers "accept-encoding").getD "unknown" ++ "\n"

/-- Body of `mime_handler` (src/main.rs lines 124–134). -/
def mime_handler (req : Request) : String :=
  (getHeaderStr req.headers "accept").getD "unknown" ++ "\n"

/-- Body of `forwarded_handler` (src/main.rs lines 137–147). -/
def forwarded_handler (req : Request) : String :=
  (getHeaderStr req.headers "forwarded").getD "unknown" ++ "\n"

/-- The text produced by the `format!` call of `all_handler`
(src/main.rs lines 155–171), with `unwrap_or_default()` embedded as
`Option.getD _ ""`. -/
def allText (info : RequestInfo) : String :=
  "ip_addr: " ++ info.ip_addr ++ "\nremote_host: " ++ info.remote_host ++ "\nuser_agent: "
    ++ info.user_agent.getD "" ++ "\nport: " ++ toString info.port ++ "\nlanguage: "
    ++ info.language.getD "" ++ "\nreferer: " ++ info.referer.getD "" ++ "\nconnection: "
    ++ info.connection.getD "" ++ "\nkeep_alive: " ++ info.keep_alive.getD "" ++ "\nmethod: "
    ++ info.method ++ "\nencoding: " ++ info.encoding.getD "" ++ "\nmime: "
    ++ info.mime.getD "" ++ "\ncharset: " ++ info.charset.getD "" ++ "\nvia: "
    ++ info.via.getD "" ++ "\nforwarded: " ++ info.forwarded.getD "" ++ "\n"

/-- Body of `all_handler` (src/main.rs lines 150–172). -/
def all_handler (addr : SocketAddr) (req : Request) : String :=
  allText (get_request_info addr req)

/-- A JSON value, as `serde_json` produces it for this program: object
fields keep declaration order. -/
inductive Json where
  | null
  | str (s : String)
  | num (n : Nat)
  | obj (fields : List (String × Json))

/-- `serde` serialization of `Option<String>`: `None` becomes JSON `null`,
`Some s` becomes the JSON string `s`. -/
def optJson : Option String → Json
  | none => Json.null
  | some s => Json.str s

/-- `serde_json` serialization of `RequestInfo` under `derive(Serialize)`:
an object with one field per struct field, in declaration order. -/
def requestInfoToJson (info : RequestInfo) : Json :=
  Json.obj
    [("ip_addr", Json.str info.ip_addr),
     ("remote_host", Json.str info.remote_host),
     ("user_agent", optJson info.user_agent),
     ("port", Json.num info.port),
     ("method", Json.str info.method),
     ("encoding", optJson info.encoding),
     ("mime", optJson info.mime),
     ("language", optJson info.language),
     ("referer", optJson info.referer),
     ("connection", optJson info.connection),
     ("keep_alive", optJson info.keep_alive),
     ("charset", optJson info.charset),
     ("via", optJson info.via),
     ("forwarded", optJson info.forwarded)]

/-- Body of `all_json_handler` (src/main.rs lines 175–181). -/
def all_json_handler (addr : SocketAddr) (req : Request) : Json :=
  requestInfoToJson (get_request_info addr req)

/-- Lookup of a named field in a JSON object. -/
def jsonFieldGet : Json → String → Option Json
  | Json.obj fields, name => (fields.find? (fun p => p.1 == name)).map Prod.snd
  | _, _ => none

/-- The socket operations `main` can perform on its way to serving. -/
inductive SockOp where
  | createV6
  | setV6Only (flag : Bool)
  | bindTo (ip : String) (port : Nat)
  | listenWith (backlog : Nat)
  | serve
deriving DecidableEq

/-- `op` is a bind operation. -/
def isBindOp : SockOp → Bool
  | SockOp.bindTo _ _ => true
  | _ => false

/-- `op` is a listen operation. -/
def isListenOp : SockOp → Bool
  | SockOp.listenWith _ => true
  | _ => false

/-- `op` configures the IPV6_V6ONLY socket option. -/
def isSetV6OnlyOp : SockOp → Bool
  | SockOp.setV6Only _ => true
  | _ => false

/-- Embedding of the socket-setup phase of `main` (src/main.rs lines
197–215).  The three Booleans are success oracles for the fallible OS
calls `TcpSocket::new_v6()`, `socket.bind(dual_addr)` and
`socket.listen(1024)`.  The result is the sequence of socket operations
performed before the program either serves (`serve` appended, no panic
message) or panics via `.expect(msg)` (the message of the failed step,
modelling immediate termination with non-zero status). -/
def mainStartup : Bool → Bool → Bool → List SockOp × Option String
  | false, _, _ =>
      ([SockOp.createV6], some "failed to create IPv6 socket")
  | true, false, _ =>
      ([SockOp.createV6, SockOp.bindTo "::" 80],
       some "failed to bind to dual-stack address")
  | true, true, false =>
      ([SockOp.createV6, SockOp.bindTo "::" 80, SockOp.listenWith 1024],
       some "failed to listen on dual-stack socket")
  | true, true, true =>
      ([SockOp.createV6, SockOp.bindTo "::" 80, SockOp.listenWith 1024, SockOp.serve],
       none)

/-- The socket operations of a fully successful startup. -/
def mainSocketOps : List SockOp := (mainStartup true true true).1

/-- The fourteen `(name, value)` pairs rendered by the `/all` endpoint, in
the order of the `format!` string, absent optional fields rendered as the
empty string. -/
def allFieldPairs (info : RequestInfo) : List (String × String) :=
  [("ip_addr", info.ip_addr),
   ("remote_host", info.remote_host),
   ("user_agent", info.user_agent.getD ""),
   ("port", toString info.port),
   ("language", info.language.getD ""),
   ("referer", info.referer.getD ""),
   ("connection", info.connection.getD ""),
   ("keep_alive", info.keep_alive.getD ""),
   ("method", info.method),
   ("encoding", info.encoding.getD ""),
   ("mime", info.mime.getD ""),
   ("charset", info.charset.getD ""),
   ("via", info.via.getD ""),
   ("forwarded", info.forwarded.getD "")]

/-- Renders a list of `(name, value)` pairs, one `name: value` line each,
every line terminated by a newline. -/
def renderLines : List (String × String) → String
  | [] => ""
  | p :: rest => p.1 ++ ": " ++ p.2 ++ "\n" ++ renderLines rest

/-- Lookup of the value rendered for a given name. -/
def pairLookup (ps : List (String × String)) (name : String) : Option String :=
  (ps.find? (fun p => p.1 == name)).map Prod.snd

/-- A request with no headers at all. -/
def emptyReq : Request :=
  { method := "GET", uri := "/", version := "HTTP/1.1", headers := [], body := [] }

/-- A sample remote socket address. -/
def sampleAddr : SocketAddr := { ip := "203.0.113.9", port := 54321 }

/-- The bytes of the text "TestBot/1.0", all visible ASCII. -/
def testBotBytes : HeaderBytes := [84, 101, 115, 116, 66, 111, 116, 47, 49, 46, 48]

/-- A request carrying every optional header the extractor reads, each with
the valid value "TestBot/1.0". -/
def fullReq : Request :=
  { method := "GET", uri := "/all.json", version := "HTTP/1.1",
    headers :=
      [("User-Agent", testBotBytes), ("Accept-Encoding", testBotBytes),
       ("Accept", testBotBytes), ("Accept-Language", testBotBytes),
       ("Referer", testBotBytes), ("Connection", testBotBytes),
       ("Keep-Alive", testBotBytes), ("Accept-Charset", testBotBytes),
       ("Via", testBotBytes), ("Forwarded", testBotBytes)],
    body := [] }

/-- A request carrying every optional header with a malformed (non
visible-ASCII) value: the byte 195 is outside 32–126. -/
def badReq : Request :=
  { method := "GET", uri := "/all.json", version := "HTTP/1.1",
    headers :=
      [("User-Agent", [195, 40]), ("Accept-Encoding", [195, 40]),
       ("Accept", [195, 40]), ("Accept-Language", [195, 40]),
       ("Referer", [195, 40]), ("Connection", [195, 40]),
       ("Keep-Alive", [195, 40]), ("Accept-Charset", [195, 40]),
       ("Via", [195, 40]), ("Forwarded", [195, 40])],
    body := [] }

/-- Two requests agreeing on method and headers but differing in URI,
version and body. -/
def reqA : Request :=
  { method := "GET", uri := "/all", version := "HTTP/1.1",
    headers := [("User-Agent", [88])], body := [] }

/-- Companion to `reqA`: same method and headers, different URI, version
and body. -/
def reqB : Request :=
  { method := "GET", uri := "/all.json", version := "HTTP/1.0",
    headers := [("User-Agent", [88])], body := [66] }

theorem getHeaderStr_of_missing (hs : List (String × HeaderBytes)) (n : String)
    (h : headerGet hs n = none) : getHeaderStr hs n = none := by
  simp [getHeaderStr, h]

theorem getHeaderStr_of_valid (hs : List (String × HeaderBytes)) (n : String)
    (bytes : HeaderBytes) (s : String) (h1 : headerGet hs n = some bytes)
    (h2 : headerValueToStr bytes = some s) : getHeaderStr hs n = some s := by
  simp [getHeaderStr, h1, h2]

theorem getHeaderStr_of_malformed (hs : List (String × HeaderBytes)) (n : String)
    (bytes : HeaderBytes) (h1 : headerGet hs n = some bytes)
    (h2 : bytes.all is_visible_ascii = false) : getHeaderStr hs n = none := by
  unfold getHeaderStr
  rw [h1]
  show headerValueToStr bytes = none
  unfold headerValueToStr
  rw [h2]
  rfl

theorem split_ip : ("ip_addr: " : String) = "ip_addr" ++ ": " := rfl

theorem split_remote : ("\nremote_host: " : String) = "\n" ++ ("remote_host" ++ ": ") := rfl

theorem split_ua : ("\nuser_agent: " : String) = "\n" ++ ("user_agent" ++ ": ") := rfl

theorem split_port : ("\nport: " : String) = "\n" ++ ("port" ++ ": ") := rfl

theorem split_lang : ("\nlanguage: " : String) = "\n" ++ ("language" ++ ": ") := rfl

theorem split_ref : ("\nreferer: " : String) = "\n" ++ ("referer" ++ ": ") := rfl

theorem split_conn : ("\nconnection: " : String) = "\n" ++ ("connection" ++ ": ") := rfl

theorem split_ka : ("\nkeep_alive: " : String) = "\n" ++ ("keep_alive" ++ ": ") := rfl

theorem split_method : ("\nmethod: " : String) = "\n" ++ ("method" ++ ": ") := rfl

theorem split_enc : ("\nencoding: " : String) = "\n" ++ ("encoding" ++ ": ") := rfl

theorem split_mime : ("\nmime: " : String) = "\n" ++ ("mime" ++ ": ") := rfl

theorem split_charset : ("\ncharset: " : String) = "\n" ++ ("charset" ++ ": ") := rfl

theorem split_via : ("\nvia: " : String) = "\n" ++ ("via" ++ ": ") := rfl

theorem split_fwd : ("\nforwarded: " : String) = "\n" ++ ("forwarded" ++ ": ") := rfl

theorem allText_eq_renderLines (info : RequestInfo) :
    allText info = renderLines (allFieldPairs info) := by
  simp only [allText, allFieldPairs, renderLines, split_ip, split_remote, split_ua,
    split_port, split_lang, split_ref, split_conn, split_ka, split_method, split_enc,
    split_mime, split_charset, split_via, split_fwd, String.append_assoc,
    String.append_empty]

/-- Claim C1 counterexample: the startup sequence performs no operation at
all on the IPV6_V6ONLY socket option, so in particular it never explicitly
disables IPv6-only mode before binding — refuting the claim that the binder
establishes dual-stack service by explicitly disabling that OS default. -/
theorem c1_counterexample_no_v6only_disable :
    ¬ ∃ op ∈ mainSocketOps, isSetV6OnlyOp op = true := by decide

/-- Claim C1 (amended): the socket binder establishes exactly one listening
socket, created as an IPv6 socket and bound once to the IPv6 wildcard
address on TCP port 80 with accept backlog 1024; it performs no
configuration of the IPv6-only socket option, so acceptance of IPv4 clients
depends on the OS default rather than on an explicit dual-stack setting. -/
theorem c1_single_listener_no_v6only_config :
    mainSocketOps.countP isListenOp = 1
    ∧ SockOp.listenWith 1024 ∈ mainSocketOps
    ∧ mainSocketOps.countP isBindOp = 1
    ∧ SockOp.bindTo "::" 80 ∈ mainSocketOps
    ∧ SockOp.createV6 ∈ mainSocketOps
    ∧ mainSocketOps.countP isSetV6OnlyOp = 0 := by decide

/-- Claim C2: for every request in which the relevant optional header is
missing, the corresponding single-field endpoint (/ua, /lang, /encoding,
/mime, /forwarded) returns exactly the body "unknown" followed by a
newline. -/
theorem c2_missing_header_single_field_unknown (req : Request) :
    (headerGet req.headers "user-agent" = none → ua_handler req = "unknown\n")
    ∧ (headerGet req.headers "accept-language" = none → lang_handler req = "unknown\n")
    ∧ (headerGet req.headers "accept-encoding" = none → encoding_handler req = "unknown\n")
    ∧ (headerGet req.headers "accept" = none → mime_handler req = "unknown\n")
    ∧ (headerGet req.headers "forwarded" = none → forwarded_handler req = "unknown\n") := by
  refine ⟨fun h => ?_, fun h => ?_, fun h => ?_, fun h => ?_, fun h => ?_⟩
  · show (getHeaderStr req.headers "user-agent").getD "unknown" ++ "\n" = "unknown\n"
    rw [getHeaderStr_of_missing _ _ h]
    rfl
  · show (getHeaderStr req.headers "accept-language").getD "unknown" ++ "\n" = "unknown\n"
    rw [getHeaderStr_of_missing _ _ h]
    rfl
  · show (getHeaderStr req.headers "accept-encoding").getD "unknown" ++ "\n" = "unknown\n"
    rw [getHeaderStr_of_missing _ _ h]
    rfl
  · show (getHeaderStr req.headers "accept").getD "unknown" ++ "\n" = "unknown\n"
    rw [getHeaderStr_of_missing _ _ h]
    rfl
  · show (getHeaderStr req.headers "forwarded").getD "unknown" ++ "\n" = "unknown\n"
    rw [getHeaderStr_of_missing _ _ h]
    rfl

/-- Claim C2 witness: on a request with no headers, each of the five
single-field endpoints returns exactly "unknown" plus newline. -/
theorem c2_missing_header_single_field_unknown_witness :
    ua_handler emptyReq = "unknown\n" ∧ lang_handler emptyReq = "unknown\n"
    ∧ encoding_handler emptyReq = "unknown\n" ∧ mime_handler emptyReq = "unknown\n"
    ∧ forwarded_handler emptyReq = "unknown\n" :=
  ⟨(c2_missing_header_single_field_unknown emptyReq).1 rfl,
   (c2_missing_header_single_field_unknown emptyReq).2.1 rfl,
   (c2_missing_header_single_field_unknown emptyReq).2.2.1 rfl,
   (c2_missing_header_single_field_unknown emptyReq).2.2.2.1 rfl,
   (c2_missing_header_single_field_unknown emptyReq).2.2.2.2 rfl⟩

/-- Claim C3: for every request the /all endpoint renders exactly the
fourteen name: value lines of `allFieldPairs`, one per RequestInfo field,
and every absent optional header renders the empty string as its value. -/
theorem c3_all_text_fourteen_line_dump (addr : SocketAddr) (req : Request) :
    all_handler addr req = renderLines (allFieldPairs (get_request_info addr req))
    ∧ (allFieldPairs (get_request_info addr req)).length = 14
    ∧ (allFieldPairs (get_request_info addr req)).map Prod.fst =
        ["ip_addr", "remote_host", "user_agent", "port", "language", "referer",
         "connection", "keep_alive", "method", "encoding", "mime", "charset",
         "via", "forwarded"]
    ∧ (headerGet req.headers "user-agent" = none →
        pairLookup (allFieldPairs (get_request_info addr req)) "user_agent" = some "")
    ∧ (headerGet req.headers "accept-language" = none →
        pairLookup (allFieldPairs (get_request_info addr req)) "language" = some "")
    ∧ (headerGet req.headers "referer" = none →
        pairLookup (allFieldPairs (get_request_info addr req)) "referer" = some "")
    ∧ (headerGet req.headers "connection" = none →
        pairLookup (allFieldPairs (get_request_info addr req)) "connection" = some "")
    ∧ (headerGet req.headers "keep-alive" = none →
        pairLookup (allFieldPairs (get_request_info addr req)) "keep_alive" = some "")
    ∧ (headerGet req.headers "accept-encoding" = none →
        pairLookup (allFieldPairs (get_request_info addr req)) "encoding" = some "")
    ∧ (headerGet req.headers "accept" = none →
        pairLookup (allFieldPairs (get_request_info addr req)) "mime" = some "")
    ∧ (headerGet req.headers "accept-charset" = none →
        pairLookup (allFieldPairs (get_request_info addr req)) "charset" = some "")
    ∧ (headerGet req.headers "via" = none →
        pairLookup (allFieldPairs (get_request_info addr req)) "via" = some "")
    ∧ (headerGet req.headers "forwarded" = none →
        pairLookup (allFieldPairs (get_request_info addr req)) "forwarded" = some "") := by
  refine ⟨allText_eq_renderLines _, rfl, rfl, fun h => ?_, fun h => ?_, fun h => ?_,
    fun h => ?_, fun h => ?_, fun h => ?_, fun h => ?_, fun h => ?_, fun h => ?_,
    fun h => ?_⟩
  · show some ((getHeaderStr req.headers "user-agent").getD "") = some ""
    rw [getHeaderStr_of_missing _ _ h]
    rfl
  · show some ((getHeaderStr req.headers "accept-language").getD "") = some ""
    rw [getHeaderStr_of_missing _ _ h]
    rfl
  · show some ((getHeaderStr req.headers "referer").getD "") = some ""
    rw [getHeaderStr_of_missing _ _ h]
    rfl
  · show some ((getHeaderStr req.headers "connection").getD "") = some ""
    rw [getHeaderStr_of_missing _ _ h]
    rfl
  · show some ((getHeaderStr req.headers "keep-alive").getD "") = some ""
    rw [getHeaderStr_of_missing _ _ h]
    rfl
  · show some ((getHeaderStr req.headers "accept-encoding").getD "") = some ""
    rw [getHeaderStr_of_missing _ _ h]
    rfl
  · show some ((getHeaderStr req.headers "accept").getD "") = some ""
    rw [getHeaderStr_of_missing _ _ h]
    rfl
  · show some ((getHeaderStr req.headers "accept-charset").getD "") = some ""
    rw [getHeaderStr_of_missing _ _ h]
    rfl
  · show some ((getHeaderStr req.headers "via").getD "") = some ""
    rw [getHeaderStr_of_missing _ _ h]
    rfl
  · show some ((getHeaderStr req.headers "forwarded").getD "") = some ""
    rw [getHeaderStr_of_missing _ _ h]
    rfl

/-- Claim C3 witness: on a request with no headers, every optional line of
the /all dump carries the empty string as its value. -/
theorem c3_all_text_fourteen_line_dump_witness :
    pairLookup (allFieldPairs (get_request_info sampleAddr emptyReq)) "user_agent" = some ""
    ∧ pairLookup (allFieldPairs (get_request_info sampleAddr emptyReq)) "language" = some ""
    ∧ pairLookup (allFieldPairs (get_request_info sampleAddr emptyReq)) "referer" = some ""
    ∧ pairLookup (allFieldPairs (get_request_info sampleAddr emptyReq)) "connection" = some ""
    ∧ pairLookup (allFieldPairs (get_request_info sampleAddr emptyReq)) "keep_alive" = some ""
    ∧ pairLookup (allFieldPairs (get_request_info sampleAddr emptyReq)) "encoding" = some ""
    ∧ pairLookup (allFieldPairs (get_request_info sampleAddr emptyReq)) "mime" = some ""
    ∧ pairLookup (allFieldPairs (get_request_info sampleAddr emptyReq)) "charset" = some ""
    ∧ pairLookup (allFieldPairs (get_request_info sampleAddr emptyReq)) "via" = some ""
    ∧ pairLookup (allFieldPairs (get_request_info sampleAddr emptyReq)) "forwarded" = some "" := by
  obtain ⟨-, -, -, h1, h2, h3, h4, h5, h6, h7, h8, h9, h10⟩ :=
    c3_all_text_fourteen_line_dump sampleAddr emptyReq
  exact ⟨h1 rfl, h2 rfl, h3 rfl, h4 rfl, h5 rfl, h6 rfl, h7 rfl, h8 rfl, h9 rfl, h10 rfl⟩

/-- Claim C4: for every request in which an optional header is missing, the
/all.json object carries the explicit JSON null as that field's value. -/
theorem c4_absent_header_json_null (addr : SocketAddr) (req : Request) :
    (headerGet req.headers "user-agent" = none →
      jsonFieldGet (all_json_handler addr req) "user_agent" = some Json.null)
    ∧ (headerGet req.headers "accept-encoding" = none →
      jsonFieldGet (all_json_handler addr req) "encoding" = some Json.null)
    ∧ (headerGet req.headers "accept" = none →
      jsonFieldGet (all_json_handler addr req) "mime" = some Json.null)
    ∧ (headerGet req.headers "accept-language" = none →
      jsonFieldGet (all_json_handler addr req) "language" = some Json.null)
    ∧ (headerGet req.headers "referer" = none →
      jsonFieldGet (all_json_handler addr req) "referer" = some Json.null)
    ∧ (headerGet req.headers "connection" = none →
      jsonFieldGet (all_json_handler addr req) "connection" = some Json.null)
    ∧ (headerGet req.headers "keep-alive" = none →
      jsonFieldGet (all_json_handler addr req) "keep_alive" = some Json.null)
    ∧ (headerGet req.headers "accept-charset" = none →
      jsonFieldGet (all_json_handler addr req) "charset" = some Json.null)
    ∧ (headerGet req.headers "via" = none →
      jsonFieldGet (all_json_handler addr req) "via" = some Json.null)
    ∧ (headerGet req.headers "forwarded" = none →
      jsonFieldGet (all_json_handler addr req) "forwarded" = some Json.null) := by
  refine ⟨fun h => ?_, fun h => ?_, fun h => ?_, fun h => ?_, fun h => ?_, fun h => ?_,
    fun h => ?_, fun h => ?_, fun h => ?_, fun h => ?_⟩
  · show some (optJson (getHeaderStr req.headers "user-agent")) = some Json.null
    rw [getHeaderStr_of_missing _ _ h]
    rfl
  · show some (optJson (getHeaderStr req.headers "accept-encoding")) = some Json.null
    rw [getHeaderStr_of_missing _ _ h]
    rfl
  · show some (optJson (getHeaderStr req.headers "accept")) = some Json.null
    rw [getHeaderStr_of_missing _ _ h]
    rfl
  · show some (optJson (getHeaderStr req.headers "accept-language")) = some Json.null
    rw [getHeaderStr_of_missing _ _ h]
    rfl
  · show some (optJson (getHeaderStr req.headers "referer")) = some Json.null
    rw [getHeaderStr_of_missing _ _ h]
    rfl
  · show some (optJson (getHeaderStr req.headers "connection")) = some Json.null
    rw [getHeaderStr_of_missing _ _ h]
    rfl
  · show some (optJson (getHeaderStr req.headers "keep-alive")) = some Json.null
    rw [getHeaderStr_of_missing _ _ h]
    rfl
  · show some (optJson (getHeaderStr req.headers "accept-charset")) = some Json.null
    rw [getHeaderStr_of_missing _ _ h]
    rfl
  · show some (optJson (getHeaderStr req.headers "via")) = some Json.null
    rw [getHeaderStr_of_missing _ _ h]
    rfl
  · show some (optJson (getHeaderStr req.headers "forwarded")) = some Json.null
    rw [getHeaderStr_of_missing _ _ h]
    rfl

/-- Claim C4 witness: on a request with no headers, all ten optional fields
of the /all.json object are JSON null. -/
theorem c4_absent_header_json_null_witness :
    jsonFieldGet (all_json_handler sampleAddr emptyReq) "user_agent" = some Json.null
    ∧ jsonFieldGet (all_json_handler sampleAddr emptyReq) "encoding" = some Json.null
    ∧ jsonFieldGet (all_json_handler sampleAddr emptyReq) "mime" = some Json.null
    ∧ jsonFieldGet (all_json_handler sampleAddr emptyReq) "language" = some Json.null
    ∧ jsonFieldGet (all_json_handler sampleAddr emptyReq) "referer" = some Json.null
    ∧ jsonFieldGet (all_json_handler sampleAddr emptyReq) "connection" = some Json.null
    ∧ jsonFieldGet (all_json_handler sampleAddr emptyReq) "keep_alive" = some Json.null
    ∧ jsonFieldGet (all_json_handler sampleAddr emptyReq) "charset" = some Json.null
    ∧ jsonFieldGet (all_json_handler sampleAddr emptyReq) "via" = some Json.null
    ∧ jsonFieldGet (all_json_handler sampleAddr emptyReq) "forwarded" = some Json.null := by
  obtain ⟨h1, h2, h3, h4, h5, h6, h7, h8, h9, h10⟩ :=
    c4_absent_header_json_null sampleAddr emptyReq
  exact ⟨h1 rfl, h2 rfl, h3 rfl, h4 rfl, h5 rfl, h6 rfl, h7 rfl, h8 rfl, h9 rfl, h10 rfl⟩

/-- Claim C5: round-trip — whenever a header is present and carries valid
text `s`, the /all.json object holds exactly the JSON string `s` for the
corresponding field, verbatim. -/
theorem c5_present_header_round_trip (addr : SocketAddr) (req : Request)
    (bytes : HeaderBytes) (s : String) :
    (headerGet req.headers "user-agent" = some bytes → headerValueToStr bytes = some s →
      jsonFieldGet (all_json_handler addr req) "user_agent" = some (Json.str s))
    ∧ (headerGet req.headers "accept-encoding" = some bytes → headerValueToStr bytes = some s →
      jsonFieldGet (all_json_handler addr req) "encoding" = some (Json.str s))
    ∧ (headerGet req.headers "accept" = some bytes → headerValueToStr bytes = some s →
      jsonFieldGet (all_json_handler addr req) "mime" = some (Json.str s))
    ∧ (headerGet req.headers "accept-language" = some bytes → headerValueToStr bytes = some s →
      jsonFieldGet (all_json_handler addr req) "language" = some (Json.str s))
    ∧ (headerGet req.headers "referer" = some bytes → headerValueToStr bytes = some s →
      jsonFieldGet (all_json_handler addr req) "referer" = some (Json.str s))
    ∧ (headerGet req.headers "connection" = some bytes → headerValueToStr bytes = some s →
      jsonFieldGet (all_json_handler addr req) "connection" = some (Json.str s))
    ∧ (headerGet req.headers "keep-alive" = some bytes → headerValueToStr bytes = some s →
      jsonFieldGet (all_json_handler addr req) "keep_alive" = some (Json.str s))
    ∧ (headerGet req.headers "accept-charset" = some bytes → headerValueToStr bytes = some s →
      jsonFieldGet (all_json_handler addr req) "charset" = some (Json.str s))
    ∧ (headerGet req.headers "via" = some bytes → headerValueToStr bytes = some s →
      jsonFieldGet (all_json_handler addr req) "via" = some (Json.str s))
    ∧ (headerGet req.headers "forwarded" = some bytes → headerValueToStr bytes = some s →
      jsonFieldGet (all_json_handler addr req) "forwarded" = some (Json.str s)) := by
  refine ⟨fun h1 h2 => ?_, fun h1 h2 => ?_, fun h1 h2 => ?_, fun h1 h2 => ?_,
    fun h1 h2 => ?_, fun h1 h2 => ?_, fun h1 h2 => ?_, fun h1 h2 => ?_,
    fun h1 h2 => ?_, fun h1 h2 => ?_⟩
  · show some (optJson (getHeaderStr req.headers "user-agent")) = some (Json.str s)
    rw [getHeaderStr_of_valid _ _ _ _ h1 h2]
    rfl
  · show some (optJson (getHeaderStr req.headers "accept-encoding")) = some (Json.str s)
    rw [getHeaderStr_of_valid _ _ _ _ h1 h2]
    rfl
  · show some (optJson (getHeaderStr req.headers "accept")) = some (Json.str s)
    rw [getHeaderStr_of_valid _ _ _ _ h1 h2]
    rfl
  · show some (optJson (getHeaderStr req.headers "accept-language")) = some (Json.str s)
    rw [getHeaderStr_of_valid _ _ _ _ h1 h2]
    rfl
  · show some (optJson (getHeaderStr req.headers "referer")) = some (Json.str s)
    rw [getHeaderStr_of_valid _ _ _ _ h1 h2]
    rfl
  · show some (optJson (getHeaderStr req.headers "connection")) = some (Json.str s)
    rw [getHeaderStr_of_valid _ _ _ _ h1 h2]
    rfl
  · show some (optJson (getHeaderStr req.headers "keep-alive")) = some (Json.str s)
    rw [getHeaderStr_of_valid _ _ _ _ h1 h2]
    rfl
  · show some (optJson (getHeaderStr req.headers "accept-charset")) = some (Json.str s)
    rw [getHeaderStr_of_valid _ _ _ _ h1 h2]
    rfl
  · show some (optJson (getHeaderStr req.headers "via")) = some (Json.str s)
    rw [getHeaderStr_of_valid _ _ _ _ h1 h2]
    rfl
  · show some (optJson (getHeaderStr req.headers "forwarded")) = some (Json.str s)
    rw [getHeaderStr_of_valid _ _ _ _ h1 h2]
    rfl

/-- Claim C5 witness: on a request carrying every optional header with the
valid value "TestBot/1.0", every corresponding /all.json field is exactly
the JSON string "TestBot/1.0". -/
theorem c5_present_header_round_trip_witness :
    jsonFieldGet (all_json_handler sampleAddr fullReq) "user_agent" = some (Json.str "TestBot/1.0")
    ∧ jsonFieldGet (all_json_handler sampleAddr fullReq) "encoding" = some (Json.str "TestBot/1.0")
    ∧ jsonFieldGet (all_json_handler sampleAddr fullReq) "mime" = some (Json.str "TestBot/1.0")
    ∧ jsonFieldGet (all_json_handler sampleAddr fullReq) "language" = some (Json.str "TestBot/1.0")
    ∧ jsonFieldGet (all_json_handler sampleAddr fullReq) "referer" = some (Json.str "TestBot/1.0")
    ∧ jsonFieldGet (all_json_handler sampleAddr fullReq) "connection" = some (Json.str "TestBot/1.0")
    ∧ jsonFieldGet (all_json_handler sampleAddr fullReq) "keep_alive" = some (Json.str "TestBot/1.0")
    ∧ jsonFieldGet (all_json_handler sampleAddr fullReq) "charset" = some (Json.str "TestBot/1.0")
    ∧ jsonFieldGet (all_json_handler sampleAddr fullReq) "via" = some (Json.str "TestBot/1.0")
    ∧ jsonFieldGet (all_json_handler sampleAddr fullReq) "forwarded" = some (Json.str "TestBot/1.0") := by
  obtain ⟨h1, h2, h3, h4, h5, h6, h7, h8, h9, h10⟩ :=
    c5_present_header_round_trip sampleAddr fullReq testBotBytes "TestBot/1.0"
  exact ⟨h1 rfl (by decide), h2 rfl (by decide), h3 rfl (by decide), h4 rfl (by decide),
    h5 rfl (by decide), h6 rfl (by decide), h7 rfl (by decide), h8 rfl (by decide),
    h9 rfl (by decide), h10 rfl (by decide)⟩

/-- Claim C6: the extractor is total by construction, and any header whose
value is not valid text (some byte outside visible ASCII) yields the absent
state of the corresponding optional field rather than an error. -/
theorem c6_malformed_header_maps_to_absent (addr : SocketAddr) (req : Request)
    (bytes : HeaderBytes) :
    (headerGet req.headers "user-agent" = some bytes → bytes.all is_visible_ascii = false →
      (get_request_info addr req).user_agent = none)
    ∧ (headerGet req.headers "accept-encoding" = some bytes → bytes.all is_visible_ascii = false →
      (get_request_info addr req).encoding = none)
    ∧ (headerGet req.headers "accept" = some bytes → bytes.all is_visible_ascii = false →
      (get_request_info addr req).mime = none)
    ∧ (headerGet req.headers "accept-language" = some bytes → bytes.all is_visible_ascii = false →
      (get_request_info addr req).language = none)
    ∧ (headerGet req.headers "referer" = some bytes → bytes.all is_visible_ascii = false →
      (get_request_info addr req).referer = none)
    ∧ (headerGet req.headers "connection" = some bytes → bytes.all is_visible_ascii = false →
      (get_request_info addr req).connection = none)
    ∧ (headerGet req.headers "keep-alive" = some bytes → bytes.all is_visible_ascii = false →
      (get_request_info addr req).keep_alive = none)
    ∧ (headerGet req.headers "accept-charset" = some bytes → bytes.all is_visible_ascii = false →
      (get_request_info addr req).charset = none)
    ∧ (headerGet req.headers "via" = some bytes → bytes.all is_visible_ascii = false →
      (get_request_info addr req).via = none)
    ∧ (headerGet req.headers "forwarded" = some bytes → bytes.all is_visible_ascii = false →
      (get_request_info addr req).forwarded = none) := by
  refine ⟨fun h1 h2 => ?_, fun h1 h2 => ?_, fun h1 h2 => ?_, fun h1 h2 => ?_,
    fun h1 h2 => ?_, fun h1 h2 => ?_, fun h1 h2 => ?_, fun h1 h2 => ?_,
    fun h1 h2 => ?_, fun h1 h2 => ?_⟩
  · exact getHeaderStr_of_malformed _ "user-agent" _ h1 h2
  · exact getHeaderStr_of_malformed _ "accept-encoding" _ h1 h2
  · exact getHeaderStr_of_malformed _ "accept" _ h1 h2
  · exact getHeaderStr_of_malformed _ "accept-language" _ h1 h2
  · exact getHeaderStr_of_malformed _ "referer" _ h1 h2
  · exact getHeaderStr_of_malformed _ "connection" _ h1 h2
  · exact getHeaderStr_of_malformed _ "keep-alive" _ h1 h2
  · exact getHeaderStr_of_malformed _ "accept-charset" _ h1 h2
  · exact getHeaderStr_of_malformed _ "via" _ h1 h2
  · exact getHeaderStr_of_malformed _ "forwarded" _ h1 h2

/-- Claim C6 witness: on a request whose every optional header carries the
malformed byte sequence 195, 40, every optional field of the extracted
record is absent. -/
theorem c6_malformed_header_maps_to_absent_witness :
    (get_request_info sampleAddr badReq).user_agent = none
    ∧ (get_request_info sampleAddr badReq).encoding = none
    ∧ (get_request_info sampleAddr badReq).mime = none
    ∧ (get_request_info sampleAddr badReq).language = none
    ∧ (get_request_info sampleAddr badReq).referer = none
    ∧ (get_request_info sampleAddr badReq).connection = none
    ∧ (get_request_info sampleAddr badReq).keep_alive = none
    ∧ (get_request_info sampleAddr badReq).charset = none
    ∧ (get_request_info sampleAddr badReq).via = none
    ∧ (get_request_info sampleAddr badReq).forwarded = none := by
  obtain ⟨h1, h2, h3, h4, h5, h6, h7, h8, h9, h10⟩ :=
    c6_malformed_header_maps_to_absent sampleAddr badReq [195, 40]
  exact ⟨h1 rfl (by decide), h2 rfl (by decide), h3 rfl (by decide), h4 rfl (by decide),
    h5 rfl (by decide), h6 rfl (by decide), h7 rfl (by decide), h8 rfl (by decide),
    h9 rfl (by decide), h10 rfl (by decide)⟩

/-- Claim C7: any failure of socket creation, binding, or listening is
fatal — the startup terminates with the diagnostic message of the failed
step, performs no serving after a failure, and every bind it ever performs
is to the single dual-stack address on port 80 (no fallback port). -/
theorem c7_startup_failure_fatal : ∀ createOk bindOk listenOk : Bool,
    (createOk = false →
      (mainStartup createOk bindOk listenOk).2 = some "failed to create IPv6 socket")
    ∧ (createOk = true → bindOk = false →
      (mainStartup createOk bindOk listenOk).2 = some "failed to bind to dual-stack address")
    ∧ (createOk = true → bindOk = true → listenOk = false →
      (mainStartup createOk bindOk listenOk).2 = some "failed to listen on dual-stack socket")
    ∧ ((mainStartup createOk bindOk listenOk).2 ≠ none →
      SockOp.serve ∉ (mainStartup createOk bindOk listenOk).1)
    ∧ ((mainStartup createOk bindOk listenOk).1.all
        (fun op => !(isBindOp op) || (op == SockOp.bindTo "::" 80)) = true)
    ∧ ((mainStartup createOk bindOk listenOk).1.countP isBindOp ≤ 1) := by decide

/-- Claim C7 witness: a failed bind terminates startup with the bind
diagnostic, and the serve step is never reached. -/
theorem c7_startup_failure_fatal_witness :
    (mainStartup true false true).2 = some "failed to bind to dual-stack address"
    ∧ (mainStartup false true true).2 = some "failed to create IPv6 socket"
    ∧ (mainStartup true true false).2 = some "failed to listen on dual-stack socket"
    ∧ SockOp.serve ∉ (mainStartup true false true).1 :=
  ⟨(c7_startup_failure_fatal true false true).2.1 rfl rfl,
   (c7_startup_failure_fatal false true true).1 rfl,
   (c7_startup_failure_fatal true true false).2.2.1 rfl rfl rfl,
   (c7_startup_failure_fatal true false true).2.2.2.1 (by decide)⟩

/-- Claim C8: for every request and remote address, the remote_host field
of the constructed RequestInfo is the constant string "unavailable". -/
theorem c8_remote_host_always_unavailable (addr : SocketAddr) (req : Request) :
    (get_request_info addr req).remote_host = "unavailable" := rfl

/-- Claim C9: the extractor is a pure, deterministic function of the remote
socket address, the request method and the header collection: two requests
agreeing on those (even if they differ in URI, version or body) yield equal
RequestInfo records. -/
theorem c9_extractor_deterministic (addr1 addr2 : SocketAddr) (req1 req2 : Request)
    (ha : addr1 = addr2) (hm : req1.method = req2.method)
    (hh : req1.headers = req2.headers) :
    get_request_info addr1 req1 = get_request_info addr2 req2 := by
  subst ha
  simp only [get_request_info, hm, hh]

/-- Claim C9 witness: two requests with equal method and headers but
different URI, version and body map to the same record under the same
address. -/
theorem c9_extractor_deterministic_witness :
    get_request_info sampleAddr reqA = get_request_info sampleAddr reqB :=
  c9_extractor_deterministic sampleAddr sampleAddr reqA reqB rfl rfl rfl

/-- Claim C10: each single-field handler, though it reads its header
directly from the request, returns exactly the corresponding field of
get_request_info rendered with the "unknown" default and a trailing
newline — the two extraction paths agree. -/
theorem c10_handlers_agree_with_extractor (addr : SocketAddr) (req : Request) :
    ua_handler req = (get_request_info addr req).user_agent.getD "unknown" ++ "\n"
    ∧ lang_handler req = (get_request_info addr req).language.getD "unknown" ++ "\n"
    ∧ encoding_handler req = (get_request_info addr req).encoding.getD "unknown" ++ "\n"
    ∧ mime_handler req = (get_request_info addr req).mime.getD "unknown" ++ "\n"
    ∧ forwarded_handler req = (get_request_info addr req).forwarded.getD "unknown" ++ "\n" :=
  ⟨rfl, rfl, rfl, rfl, rfl⟩

end Echo
